import Mathlib

/-!
Verification of the HTML-to-image rendering service (server.js / the server
variant embedded alongside swagger.js) against its natural-language
specification.  The JavaScript is shallowly embedded: pure helpers become
Lean functions, and the stateful render pipeline becomes a function that
produces an explicit event trace together with a result.  External
capabilities (the URL parser, the Handlebars template engine, the outcomes
of browser operations) are passed in as parameters.
-/

set_option autoImplicit false

namespace Html2Image

/-- Boolean infix test on code-point lists: the pattern is a prefix of some
suffix of the subject. -/
def listIsInfix (pat : List Char) : List Char → Bool
  | [] => List.isPrefixOf pat []
  | c :: rest => List.isPrefixOf pat (c :: rest) || listIsInfix pat rest

/-- JS String.prototype.includes, over code points. -/
def strIncludes (s pat : String) : Bool :=
  listIsInfix pat.data s.data

/-- JS String.prototype.startsWith, over code points. -/
def strStartsWith (s pat : String) : Bool :=
  List.isPrefixOf pat.data s.data

/-- JS String.prototype.endsWith, over code points. -/
def strEndsWith (s pat : String) : Bool :=
  List.isSuffixOf pat.data s.data

/-- JS String.prototype.slice with a single nonnegative start index. -/
def strDrop (s : String) (n : Nat) : String :=
  ⟨s.data.drop n⟩

/-- Replacement of the first occurrence of a pattern, on code-point lists:
the behavior of JS String.prototype.replace with a string pattern. -/
def replaceFirstAux (pat rep : List Char) : List Char → List Char
  | [] => []
  | c :: rest =>
    if List.isPrefixOf pat (c :: rest) then rep ++ (c :: rest).drop pat.length
    else c :: replaceFirstAux pat rep rest

/-- JS String.prototype.replace with a plain-string pattern (first occurrence
only; no occurrence leaves the string unchanged). -/
def strReplaceFirst (s pat rep : String) : String :=
  ⟨replaceFirstAux pat.data rep.data s.data⟩

/-- JS truthiness of an optional string: undefined and the empty string are
falsy, every other string is truthy. -/
def truthy : Option String → Bool
  | none => false
  | some s => !s.isEmpty

/-- JS `x || d` for an optional number whose only falsy numeric value in our
setting is 0 (widths and heights are nonnegative integers). -/
def jsOr (x : Option Nat) (d : Nat) : Nat :=
  match x with
  | none => d
  | some n => if n = 0 then d else n

/-- Output image formats accepted by the schema. -/
inductive ImageFormat where
  | png
  | jpeg
  | webp
deriving DecidableEq, Repr

/-- A clip rectangle as in the request schema: four JS numbers, embedded as
rationals (arbitrary sign and magnitude). -/
structure Clip where
  x : ℚ
  y : ℚ
  width : ℚ
  height : ℚ
deriving DecidableEq, Repr

/-- One entry of the size-preset table. -/
structure SizeEntry where
  width : Nat
  height : Nat
deriving DecidableEq, Repr

/-- The preset table loaded at startup (PRESETS). -/
structure Presets where
  sizes : List (String × SizeEntry)
  clips : List (String × Clip)
deriving Repr

/-- The environment-derived service configuration. -/
structure Config where
  DEFAULT_DPR : ℚ
  MAX_WIDTH : Nat
  MAX_HEIGHT : Nat
  MAX_PIXELS : Nat
  BLOCK_EXTERNAL : Bool
  ALLOW_URL : Bool
  ALLOWLIST : List String
deriving Repr

/-- A thrown JS error, identified by its message. -/
structure JsError where
  message : String
deriving DecidableEq, Repr

/-- The resolved viewport produced by enforceSize. -/
structure ViewportSize where
  width : Nat
  height : Nat
deriving DecidableEq, Repr

/-- Matching of one hostname against one allowlist entry: the body of the
callback passed to ALLOWLIST.some inside isWhitelisted. -/
def hostMatchesEntry (h entry : String) : Bool :=
  if strStartsWith entry "*." then
    let dom := strDrop entry 2
    h == dom || strEndsWith h ("." ++ dom)
  else h == entry

/-- isWhitelisted from server.js.  The URL parser (new URL) is an external
capability, passed in as hostnameOf. -/
def isWhitelisted (hostnameOf : String → Option String) (allowlist : List String)
    (u : String) : Bool :=
  match hostnameOf u with
  | none => false
  | some h =>
    if allowlist.isEmpty then false
    else allowlist.any fun entry => hostMatchesEntry h entry

/-- enforceSize from server.js: clamp each axis independently, then reject if
the clamped area exceeds the pixel budget. -/
def enforceSize (cfg : Config) (width height : Option Nat) : Except JsError ViewportSize :=
  let w := min (jsOr width 1200) cfg.MAX_WIDTH
  let h := min (jsOr height 630) cfg.MAX_HEIGHT
  if cfg.MAX_PIXELS < w * h then
    .error ⟨"Requested viewport " ++ toString w ++ "x" ++ toString h ++
      " exceeds maximum pixel budget " ++ toString cfg.MAX_PIXELS⟩
  else
    .ok ⟨w, h⟩

/-- Result of a JS property access on a plain object (such as the parsed
presets tables): an own data property, a member inherited from
Object.prototype (a truthy function or object that carries no width or
height fields), or nothing at all (undefined). -/
inductive JsProp (α : Type) where
  | own (a : α)
  | inherited
  | absent
deriving DecidableEq, Repr

/-- The property names every plain object inherits from Object.prototype in
Node: a bracket access with one of these names on a table that lacks it as an
own key still yields a truthy value. -/
def objectProtoProps : List String :=
  ["constructor", "hasOwnProperty", "isPrototypeOf", "propertyIsEnumerable",
   "toLocaleString", "toString", "valueOf", "__proto__",
   "__defineGetter__", "__defineSetter__", "__lookupGetter__", "__lookupSetter__"]

/-- JS bracket property access on a JSON-derived table: an own key wins,
otherwise the prototype chain of Object.prototype is consulted, otherwise the
access yields undefined. -/
def jsGetProp {α : Type} (table : List (String × α)) (name : String) : JsProp α :=
  match table.lookup name with
  | some a => .own a
  | none => if objectProtoProps.contains name then .inherited else .absent

/-- Size-preset application in the /render handler: an absent or empty (falsy)
sizePreset leaves the requested width/height; for a truthy name the handler
reads PRESETS.sizes with a bracket access and throws only when that access is
falsy.  An own entry overrides both axes; a name inherited from
Object.prototype is truthy, passes the guard, and its width and height reads
yield undefined, replacing any explicit dimensions with undefined. -/
def resolveWH (presets : Presets) (opts_sizePreset : Option String)
    (opts_width opts_height : Option Nat) : Except JsError (Option Nat × Option Nat) :=
  match opts_sizePreset with
  | none => .ok (opts_width, opts_height)
  | some name =>
    if name.isEmpty then .ok (opts_width, opts_height)
    else
      match jsGetProp presets.sizes name with
      | .absent => .error ⟨"Unknown sizePreset: " ++ name⟩
      | .own sp => .ok (some sp.width, some sp.height)
      | .inherited => .ok (none, none)

/-- Clip-preset application in the /render handler: a truthy clipPreset must
exist in the table and then overrides any explicit clip. -/
def resolveClip (presets : Presets) (opts_clipPreset : Option String)
    (opts_clip : Option Clip) : Except JsError (Option Clip) :=
  match opts_clipPreset with
  | none => .ok opts_clip
  | some name =>
    if name.isEmpty then .ok opts_clip
    else
      match presets.clips.lookup name with
      | none => .error ⟨"Unknown clipPreset: " ++ name⟩
      | some cp => .ok (some cp)

/-- Decision of the network-routing interceptor installed by withPage, for one
outgoing request URL. -/
inductive RouteAction where
  | cont
  | abort
deriving DecidableEq, Repr

/-- The route callback installed by context.route in withPage. -/
def routeHandler (cfg : Config) (hostnameOf : String → Option String)
    (url : String) : RouteAction :=
  if !cfg.BLOCK_EXTERNAL then .cont
  else if strStartsWith url "data:" || strStartsWith url "blob:" then .cont
  else if cfg.ALLOW_URL && isWhitelisted hostnameOf cfg.ALLOWLIST url then .cont
  else .abort

/-- Wait conditions of the schema (waitUntil). -/
inductive WaitUntil where
  | load
  | domcontentloaded
  | networkidle
deriving DecidableEq, Repr

/-- A validated /render request body, after RenderSchema.safeParse succeeded.
Fields mirror the zod schema; schema-applied defaults (format png, fullPage
and omitBackground false, waitUntil networkidle) are materialized by the
parse, so they appear here as plain fields. -/
structure RenderOpts where
  html : Option String
  url : Option String
  templateName : Option String
  templateData : Option (List (String × String))
  width : Option Nat
  height : Option Nat
  sizePreset : Option String
  dpr : Option ℚ
  format : ImageFormat
  quality : Option Nat
  fullPage : Bool
  omitBackground : Bool
  clip : Option Clip
  clipPreset : Option String
  waitUntil : WaitUntil
  waitFor : Option (Sum Nat String)
  timeout : Option Nat
  css : Option String

/-- Optional css injection: a truthy css string is wrapped in a style block
spliced in before the first closing head tag (no-op when the tag is absent). -/
def injectCss (css : Option String) (html : String) : String :=
  match css with
  | none => html
  | some c =>
    if c.isEmpty then html
    else strReplaceFirst html "</head>" ("<style>" ++ c ++ "</style></head>")

/-- The content instruction the dispatch step hands to the page: markup for
setContent, or a target URL for goto. -/
inductive ContentInstruction where
  | markup (html : String)
  | nav (url : String)
deriving DecidableEq, Repr

/-- Content-source dispatch inside the withPage callback of the /render
handler: templateName, then html, then url, each tested for JS truthiness;
the url branch checks ALLOW_URL and the allowlist.  Template rendering
(Handlebars) is an external capability, passed in as markupOf. -/
def dispatchContent (cfg : Config) (hostnameOf : String → Option String)
    (markupOf : String → Option (List (String × String)) → String)
    (opts : RenderOpts) : Except JsError ContentInstruction :=
  if truthy opts.templateName then
    .ok (.markup (injectCss opts.css (markupOf (opts.templateName.getD "") opts.templateData)))
  else if truthy opts.html then
    .ok (.markup (injectCss opts.css (opts.html.getD "")))
  else if truthy opts.url then
    if !cfg.ALLOW_URL then
      .error ⟨"URL rendering disabled by server configuration"⟩
    else if !(isWhitelisted hostnameOf cfg.ALLOWLIST (opts.url.getD "")) then
      .error ⟨"URL not in allowlist"⟩
    else
      .ok (.nav (opts.url.getD ""))
  else
    .error ⟨"Provide one of: html | templateName | url"⟩

/-- Options object passed to page.screenshot: quality is undefined for png
and otherwise defaults to 90 (destructuring default, applied only when the
field is absent). -/
structure ScreenshotOptions where
  type : ImageFormat
  quality : Option Nat
  fullPage : Bool
  omitBackground : Bool
  clip : Option Clip
deriving DecidableEq, Repr

/-- Image bytes, abstracted. -/
abbrev Buffer := Nat

/-- Observable actions performed against the rendering engine, in order. -/
inductive Event where
  | engineAcquire
  | contextCreate (dsf : ℚ)
  | routeInstall
  | pageCreate
  | setViewport (w h : Nat)
  | emulateMedia
  | setDefaultTimeout (ms : Nat)
  | setContent (markup : String)
  | goto (url : String)
  | waitTimeout (ms : Nat)
  | waitSelector (sel : String)
  | evalSetDPR (dpr : ℚ)
  | screenshot (o : ScreenshotOptions)
  | pageClose
  | contextClose
  | resetBrowser
  | delay (ms : Nat)
deriving DecidableEq, Repr

/-- The page event emitted when loading a content instruction. -/
def loadEventOf : ContentInstruction → Event
  | .markup s => .setContent s
  | .nav u => .goto u

/-- Outcomes of the engine-driven steps of one attempt, supplied by the
environment: content load, selector wait, and screenshot capture can each
succeed or throw. -/
structure AttemptEnv where
  loadResult : Except JsError Unit
  waitResult : Except JsError Unit
  shotResult : Except JsError Buffer

/-- The optional extra-wait step: a numeric waitFor sleeps, a string waitFor
waits for the selector to become visible and can time out. -/
def waitStep (opts : RenderOpts) (env : AttemptEnv) : List Event × Except JsError Unit :=
  match opts.waitFor with
  | none => ([], .ok ())
  | some (.inl n) => ([.waitTimeout n], .ok ())
  | some (.inr sel) => ([.waitSelector sel], env.waitResult)

/-- The screenshot options built by the handler from the request and the
resolved clip. -/
def screenshotOptionsOf (opts : RenderOpts) (clip : Option Clip) : ScreenshotOptions :=
  { type := opts.format
    quality := if opts.format = ImageFormat.png then none else some (opts.quality.getD 90)
    fullPage := opts.fullPage
    omitBackground := opts.omitBackground
    clip := clip }

/-- The body of the withPage callback in the /render handler: viewport, media
emulation, timeout, content dispatch and load, optional extra wait, viewport
re-set plus devicePixelRatio patch, screenshot. -/
def pipelineRun (cfg : Config) (hostnameOf : String → Option String)
    (markupOf : String → Option (List (String × String)) → String)
    (opts : RenderOpts) (size : ViewportSize) (clip : Option Clip)
    (env : AttemptEnv) : List Event × Except JsError Buffer :=
  let pre : List Event :=
    [.setViewport size.width size.height, .emulateMedia,
     .setDefaultTimeout (opts.timeout.getD 15000)]
  match dispatchContent cfg hostnameOf markupOf opts with
  | .error e => (pre, .error e)
  | .ok ci =>
    match env.loadResult with
    | .error e => (pre ++ [loadEventOf ci], .error e)
    | .ok _ =>
      match waitStep opts env with
      | (wEvs, .error e) => (pre ++ [loadEventOf ci] ++ wEvs, .error e)
      | (wEvs, .ok _) =>
        let post : List Event :=
          [.setViewport size.width size.height,
           .evalSetDPR (opts.dpr.getD cfg.DEFAULT_DPR)]
        let shotEv : Event := .screenshot (screenshotOptionsOf opts clip)
        match env.shotResult with
        | .error e => (pre ++ [loadEventOf ci] ++ wEvs ++ post ++ [shotEv], .error e)
        | .ok b => (pre ++ [loadEventOf ci] ++ wEvs ++ post ++ [shotEv], .ok b)

/-- One attempt of withPage: acquire the shared engine, open an isolated
context (deviceScaleFactor is the service-wide DEFAULT_DPR), install the
routing interceptor, open a page, run the callback, and always close page
then context in the finally block. -/
def renderAttempt (cfg : Config) (hostnameOf : String → Option String)
    (markupOf : String → Option (List (String × String)) → String)
    (opts : RenderOpts) (size : ViewportSize) (clip : Option Clip)
    (env : AttemptEnv) : List Event × Except JsError Buffer :=
  let body := pipelineRun cfg hostnameOf markupOf opts size clip env
  ([.engineAcquire, .contextCreate cfg.DEFAULT_DPR, .routeInstall, .pageCreate]
     ++ body.fst ++ [.pageClose, .contextClose], body.snd)

/-- The substring whose presence in an error message marks the engine process
as closed (the only retried condition in withPage). -/
def engineClosedPattern : String :=
  "Target page, context or browser has been closed"

/-- Retry condition of withPage: the message mentions the closed-target text. -/
def isEngineClosedMsg (m : String) : Bool :=
  strIncludes m engineClosedPattern

/-- The retry loop of withPage (the variant with recovery): up to the given
number of attempts; an engine-closed failure discards the shared browser
handle, sleeps 500 ms and retries; any other failure is rethrown at once;
exhaustion rethrows the last error. -/
def withPageLoop (attempt : Nat → List Event × Except JsError Buffer) :
    Nat → Nat → Option JsError → List Event → List Event × Except JsError Buffer
  | _, 0, lastError, acc => (acc, .error (lastError.getD ⟨""⟩))
  | idx, retries + 1, _lastError, acc =>
    match attempt idx with
    | (tr, .ok b) => (acc ++ tr, .ok b)
    | (tr, .error e) =>
      if isEngineClosedMsg e.message then
        withPageLoop attempt (idx + 1) retries (some e)
          (acc ++ tr ++ [.resetBrowser, .delay 500])
      else (acc ++ tr, .error e)

/-- withPage: three total attempts. -/
def withPage (attempt : Nat → List Event × Except JsError Buffer) :
    List Event × Except JsError Buffer :=
  withPageLoop attempt 0 3 none []

/-- The /render handler after schema validation: size-preset resolution,
viewport clamping, clip-preset resolution, then the withPage-wrapped
pipeline.  Any resolution failure produces an error response before any
engine interaction, hence the empty trace. -/
def renderHandler (cfg : Config) (presets : Presets)
    (hostnameOf : String → Option String)
    (markupOf : String → Option (List (String × String)) → String)
    (opts : RenderOpts) (envOf : Nat → AttemptEnv) :
    List Event × Except JsError Buffer :=
  match resolveWH presets opts.sizePreset opts.width opts.height with
  | .error e => ([], .error e)
  | .ok (w0, h0) =>
    match enforceSize cfg w0 h0 with
    | .error e => ([], .error e)
    | .ok size =>
      match resolveClip presets opts.clipPreset opts.clip with
      | .error e => ([], .error e)
      | .ok clip =>
        withPage fun i => renderAttempt cfg hostnameOf markupOf opts size clip (envOf i)

/-- One zod number check: an optional integrality refinement and optional
inclusive bounds. -/
structure NumCheck where
  isInt : Bool
  lo : Option ℚ
  hi : Option ℚ

/-- Acceptance of one JS number by a zod number check. -/
def NumCheck.accepts (nc : NumCheck) (q : ℚ) : Bool :=
  (!nc.isInt || q.den == 1) &&
    (match nc.lo with | none => true | some l => decide (l ≤ q)) &&
    (match nc.hi with | none => true | some h => decide (q ≤ h))

/-- The schema check on each clip coordinate field: plain z.number, with no
integrality or bound refinement. -/
def clipFieldCheck : NumCheck := ⟨false, none, none⟩

/-- RenderSchema acceptance of a clip object: every field is checked only for
being a number. -/
def clipSchemaAccepts (c : Clip) : Bool :=
  clipFieldCheck.accepts c.x && clipFieldCheck.accepts c.y &&
    clipFieldCheck.accepts c.width && clipFieldCheck.accepts c.height

/-- Modelled from the spec: the presets file templates/presets/presets.json is
not among the provided sources; the size table below is the one documented in
the repository README (twitter_card 1200x630, square_1080 1080x1080,
story_1080x1920 1080x1920, banner_1920x480 1920x480, rednote_1080x1440
1080x1440, rednote_1080x1080 1080x1080), with no documented clip presets. -/
def documentedPresets : Presets :=
  { sizes :=
      [("twitter_card", ⟨1200, 630⟩),
       ("square_1080", ⟨1080, 1080⟩),
       ("story_1080x1920", ⟨1080, 1920⟩),
       ("banner_1920x480", ⟨1920, 480⟩),
       ("rednote_1080x1440", ⟨1080, 1440⟩),
       ("rednote_1080x1080", ⟨1080, 1080⟩)]
    clips := [] }

/-- The configuration produced by the documented environment defaults:
DEFAULT_DPR 1, MAX_WIDTH 4000, MAX_HEIGHT 4000, MAX_PIXELS 14000000,
BLOCK_EXTERNAL true, ALLOW_URL false, empty allowlist. -/
def defaultConfig : Config :=
  { DEFAULT_DPR := 1
    MAX_WIDTH := 4000
    MAX_HEIGHT := 4000
    MAX_PIXELS := 14000000
    BLOCK_EXTERNAL := true
    ALLOW_URL := false
    ALLOWLIST := [] }

/-- A request with every optional field absent and schema defaults applied. -/
def baseOpts : RenderOpts :=
  { html := none
    url := none
    templateName := none
    templateData := none
    width := none
    height := none
    sizePreset := none
    dpr := none
    format := ImageFormat.png
    quality := none
    fullPage := false
    omitBackground := false
    clip := none
    clipPreset := none
    waitUntil := WaitUntil.networkidle
    waitFor := none
    timeout := none
    css := none }

/-- An environment in which every engine-driven step succeeds. -/
def envAllOk : AttemptEnv :=
  { loadResult := .ok ()
    waitResult := .ok ()
    shotResult := .ok 0 }

/-! ### Helper lemmas about the pipeline and the retry loop -/

/-- Events of the wait step are only the two wait events. -/
lemma waitStep_events (opts : RenderOpts) (env : AttemptEnv) :
    ∀ e ∈ (waitStep opts env).fst,
      (∃ n, e = Event.waitTimeout n) ∨ (∃ s, e = Event.waitSelector s) := by
  intro e he
  rcases hwf : opts.waitFor with _ | nsel
  · simp [waitStep, hwf] at he
  · rcases nsel with n | sel
    · simp [waitStep, hwf] at he
      exact Or.inl ⟨n, he⟩
    · simp [waitStep, hwf] at he
      exact Or.inr ⟨sel, he⟩

/-- The load event is a setContent or a goto. -/
lemma loadEventOf_shape (ci : ContentInstruction) :
    (∃ s, loadEventOf ci = Event.setContent s) ∨ (∃ u, loadEventOf ci = Event.goto u) := by
  cases ci <;> simp [loadEventOf]

/-- Every event the pipeline body emits is benign: it is no close, no context
creation, no engine acquisition, and any screenshot it performs uses exactly
the options built from the request and the resolved clip. -/
lemma pipelineRun_events (cfg : Config) (hostnameOf : String → Option String)
    (markupOf : String → Option (List (String × String)) → String)
    (opts : RenderOpts) (size : ViewportSize) (clip : Option Clip) (env : AttemptEnv) :
    ∀ e ∈ (pipelineRun cfg hostnameOf markupOf opts size clip env).fst,
      e ≠ Event.pageClose ∧ e ≠ Event.contextClose ∧
      (∀ d, e ≠ Event.contextCreate d) ∧ e ≠ Event.engineAcquire ∧
      (∀ o, e = Event.screenshot o → o = screenshotOptionsOf opts clip) := by
  intro e he
  rcases hd : dispatchContent cfg hostnameOf markupOf opts with er | ci
  · simp only [pipelineRun, hd] at he
    simp only [List.mem_cons, List.not_mem_nil, or_false, or_assoc] at he
    rcases he with rfl | rfl | rfl <;> simp
  · simp only [pipelineRun, hd] at he
    rcases hl : env.loadResult with el | u
    · simp only [hl] at he
      simp only [List.mem_append, List.mem_cons, List.not_mem_nil, or_false, or_assoc] at he
      rcases he with rfl | rfl | rfl | rfl <;>
        first
          | (simp; done)
          | (cases ci <;> simp [loadEventOf])
    · simp only [hl] at he
      rcases hwf : opts.waitFor with _ | nsel
      · simp only [waitStep, hwf] at he
        rcases hs : env.shotResult with es | b <;>
          simp only [hs] at he <;>
          simp only [List.mem_append, List.mem_cons, List.not_mem_nil, List.nil_append,
            List.append_nil, or_false, or_assoc] at he <;>
          rcases he with rfl | rfl | rfl | rfl | rfl | rfl | rfl <;>
          first
            | (simp; done)
            | (cases ci <;> simp [loadEventOf])
      · rcases nsel with n | sel
        · simp only [waitStep, hwf] at he
          rcases hs : env.shotResult with es | b <;>
            simp only [hs] at he <;>
            simp only [List.mem_append, List.mem_cons, List.not_mem_nil, or_false, or_assoc] at he <;>
            rcases he with rfl | rfl | rfl | rfl | rfl | rfl | rfl | rfl <;>
            first
              | (simp; done)
              | (cases ci <;> simp [loadEventOf])
        · simp only [waitStep, hwf] at he
          rcases hw : env.waitResult with ew | u2
          · simp only [hw] at he
            simp only [List.mem_append, List.mem_cons, List.not_mem_nil, or_false, or_assoc] at he
            rcases he with rfl | rfl | rfl | rfl | rfl <;>
              first
                | (simp; done)
                | (cases ci <;> simp [loadEventOf])
          · simp only [hw] at he
            rcases hs : env.shotResult with es | b <;>
              simp only [hs] at he <;>
              simp only [List.mem_append, List.mem_cons, List.not_mem_nil, or_false, or_assoc] at he <;>
              rcases he with rfl | rfl | rfl | rfl | rfl | rfl | rfl | rfl <;>
              first
                | (simp; done)
                | (cases ci <;> simp [loadEventOf])

/-- The trace of one attempt is the fixed setup, the pipeline body, and the
closing pair, in that order. -/
lemma renderAttempt_fst (cfg : Config) (hostnameOf : String → Option String)
    (markupOf : String → Option (List (String × String)) → String)
    (opts : RenderOpts) (size : ViewportSize) (clip : Option Clip) (env : AttemptEnv) :
    (renderAttempt cfg hostnameOf markupOf opts size clip env).fst =
      [Event.engineAcquire, Event.contextCreate cfg.DEFAULT_DPR, Event.routeInstall,
       Event.pageCreate]
        ++ (pipelineRun cfg hostnameOf markupOf opts size clip env).fst
        ++ [Event.pageClose, Event.contextClose] := rfl

/-- On a fully successful attempt the trace is the explicit linear sequence:
setup, content load, optional waits, viewport re-set, ratio patch, screenshot,
then page and context close. -/
lemma renderAttempt_success_trace (cfg : Config) (hostnameOf : String → Option String)
    (markupOf : String → Option (List (String × String)) → String)
    (opts : RenderOpts) (size : ViewportSize) (clip : Option Clip) (env : AttemptEnv)
    (ci : ContentInstruction) (b : Buffer)
    (hd : dispatchContent cfg hostnameOf markupOf opts = .ok ci)
    (hl : env.loadResult = .ok ())
    (hw : (waitStep opts env).snd = .ok ())
    (hs : env.shotResult = .ok b) :
    renderAttempt cfg hostnameOf markupOf opts size clip env =
      ([Event.engineAcquire, Event.contextCreate cfg.DEFAULT_DPR, Event.routeInstall,
        Event.pageCreate, Event.setViewport size.width size.height, Event.emulateMedia,
        Event.setDefaultTimeout (opts.timeout.getD 15000), loadEventOf ci]
        ++ (waitStep opts env).fst
        ++ [Event.setViewport size.width size.height,
            Event.evalSetDPR (opts.dpr.getD cfg.DEFAULT_DPR),
            Event.screenshot (screenshotOptionsOf opts clip),
            Event.pageClose, Event.contextClose], .ok b) := by
  rcases hww : waitStep opts env with ⟨wEvs, wres⟩
  have hwres : wres = .ok () := by
    have := hw
    rw [hww] at this
    exact this
  subst hwres
  unfold renderAttempt pipelineRun
  rw [hd, hl, hww, hs]
  simp

/-- Invariant transfer through the withPage retry loop: a property holding for
every event of every attempt, for the browser reset and for the 500 ms delay,
holds for every event of the loop trace. -/
lemma withPageLoop_event_pred (P : Event → Prop)
    (attempt : Nat → List Event × Except JsError Buffer)
    (hA : ∀ i, ∀ e ∈ (attempt i).fst, P e)
    (hR : P Event.resetBrowser) (hD : P (Event.delay 500)) :
    ∀ retries idx lastE acc, (∀ e ∈ acc, P e) →
      ∀ e ∈ (withPageLoop attempt idx retries lastE acc).fst, P e := by
  intro retries
  induction retries with
  | zero =>
    intro idx lastE acc hacc e he
    simp only [withPageLoop] at he
    exact hacc e he
  | succ n ih =>
    intro idx lastE acc hacc e he
    simp only [withPageLoop] at he
    rcases hAt : attempt idx with ⟨tr, res⟩
    have htr : ∀ e ∈ tr, P e := by
      intro e he'
      have := hA idx e
      rw [hAt] at this
      exact this he'
    rw [hAt] at he
    cases res with
    | ok b =>
      simp at he
      rcases he with he | he
      · exact hacc e he
      · exact htr e he
    | error er =>
      by_cases hc : isEngineClosedMsg er.message
      · simp [hc] at he
        refine ih _ _ _ ?_ e he
        intro x hx
        simp at hx
        rcases hx with hx | hx | hx | hx
        · exact hacc x hx
        · exact htr x hx
        · exact hx ▸ hR
        · exact hx ▸ hD
      · simp [hc] at he
        rcases he with he | he
        · exact hacc e he
        · exact htr e he

/-! ### Concrete fixtures used by witnesses and counterexamples -/

/-- A URL parser that never yields a hostname (irrelevant to non-url flows). -/
def hostnameNone : String → Option String := fun _ => none

/-- A URL parser that treats its input as already being a hostname. -/
def hostnameId : String → Option String := fun u => some u

/-- A template engine producing a fixed empty markup. -/
def markupConst : String → Option (List (String × String)) → String := fun _ _ => ""

/-- A request that clamps to 4000x4000 and so exceeds the default pixel budget. -/
def oversizeOpts : RenderOpts :=
  { baseOpts with width := some 4000, height := some 4000, html := some "<p>x</p>" }

/-- The enforceSize failure produced by oversizeOpts under defaultConfig. -/
def oversizeErr : JsError :=
  ⟨"Requested viewport 4000x4000 exceeds maximum pixel budget 14000000"⟩

/-! ### Claim theorems -/

/-- Claim C1: for every /render request, the resolved viewport clamps each
axis independently to the configured maximum (defaulting 1200x630), and a
clamped product above MAX_PIXELS rejects the request with an error while the
event trace stays empty — no engine resource is acquired — so whenever
rendering proceeds the resolved area is within MAX_PIXELS. -/
theorem C1_viewport_clamp_and_pixel_budget (cfg : Config) (presets : Presets)
    (hostnameOf : String → Option String)
    (markupOf : String → Option (List (String × String)) → String)
    (opts : RenderOpts) (envOf : Nat → AttemptEnv) (w0 h0 : Option Nat)
    (hwh : resolveWH presets opts.sizePreset opts.width opts.height = .ok (w0, h0)) :
    (∀ e, enforceSize cfg w0 h0 = .error e →
        renderHandler cfg presets hostnameOf markupOf opts envOf = ([], .error e)) ∧
    (∀ size, enforceSize cfg w0 h0 = .ok size →
        size.width = min (jsOr w0 1200) cfg.MAX_WIDTH ∧
        size.height = min (jsOr h0 630) cfg.MAX_HEIGHT ∧
        size.width * size.height ≤ cfg.MAX_PIXELS) := by
  constructor
  · intro e he
    simp [renderHandler, hwh, he]
  · intro size hsz
    simp only [enforceSize] at hsz
    by_cases hc : cfg.MAX_PIXELS <
        min (jsOr w0 1200) cfg.MAX_WIDTH * min (jsOr h0 630) cfg.MAX_HEIGHT
    · simp [hc] at hsz
    · simp [hc] at hsz
      subst hsz
      exact ⟨rfl, rfl, Nat.le_of_not_lt hc⟩

/-- Witness for C1 at a concrete oversized request: clamping to 4000x4000
exceeds the default budget of 14000000, the handler rejects with the budget
error and the trace is empty. -/
theorem C1_viewport_clamp_and_pixel_budget_witness :
    resolveWH documentedPresets oversizeOpts.sizePreset oversizeOpts.width
        oversizeOpts.height = .ok (some 4000, some 4000) ∧
    enforceSize defaultConfig (some 4000) (some 4000) = .error oversizeErr ∧
    renderHandler defaultConfig documentedPresets hostnameNone markupConst
        oversizeOpts (fun _ => envAllOk) = ([], .error oversizeErr) :=
  ⟨rfl, rfl,
    (C1_viewport_clamp_and_pixel_budget defaultConfig documentedPresets hostnameNone
        markupConst oversizeOpts (fun _ => envAllOk) (some 4000) (some 4000) rfl).1
      oversizeErr rfl⟩

/-- Claim C3: on every exit path of a render attempt — success, thrown
failure, or timeout (any combination of step outcomes in the environment) —
the per-request page and context are each closed exactly once, page first and
context second, as the final two events of the attempt. -/
theorem C3_page_and_context_closed_once (cfg : Config)
    (hostnameOf : String → Option String)
    (markupOf : String → Option (List (String × String)) → String)
    (opts : RenderOpts) (size : ViewportSize) (clip : Option Clip) (env : AttemptEnv) :
    ∃ pre : List Event,
      (renderAttempt cfg hostnameOf markupOf opts size clip env).fst
        = pre ++ [Event.pageClose, Event.contextClose] ∧
      Event.pageClose ∉ pre ∧ Event.contextClose ∉ pre ∧
      (renderAttempt cfg hostnameOf markupOf opts size clip env).fst.count
        Event.pageClose = 1 ∧
      (renderAttempt cfg hostnameOf markupOf opts size clip env).fst.count
        Event.contextClose = 1 := by
  have hpipe := pipelineRun_events cfg hostnameOf markupOf opts size clip env
  have hpc : Event.pageClose ∉
      [Event.engineAcquire, Event.contextCreate cfg.DEFAULT_DPR, Event.routeInstall,
        Event.pageCreate] ++ (pipelineRun cfg hostnameOf markupOf opts size clip env).fst := by
    intro hmem
    rcases List.mem_append.mp hmem with h4 | hp
    · simp at h4
    · exact (hpipe _ hp).1 rfl
  have hcc : Event.contextClose ∉
      [Event.engineAcquire, Event.contextCreate cfg.DEFAULT_DPR, Event.routeInstall,
        Event.pageCreate] ++ (pipelineRun cfg hostnameOf markupOf opts size clip env).fst := by
    intro hmem
    rcases List.mem_append.mp hmem with h4 | hp
    · simp at h4
    · exact (hpipe _ hp).2.1 rfl
  refine ⟨[Event.engineAcquire, Event.contextCreate cfg.DEFAULT_DPR, Event.routeInstall,
      Event.pageCreate] ++ (pipelineRun cfg hostnameOf markupOf opts size clip env).fst,
      ?_, hpc, hcc, ?_, ?_⟩
  · rw [renderAttempt_fst]
  · rw [renderAttempt_fst, List.count_append, List.count_append]
    have h0 : List.count Event.pageClose
        (pipelineRun cfg hostnameOf markupOf opts size clip env).fst = 0 :=
      List.count_eq_zero.mpr fun hm => (hpipe _ hm).1 rfl
    rw [h0]
    simp
  · rw [renderAttempt_fst, List.count_append, List.count_append]
    have h0 : List.count Event.contextClose
        (pipelineRun cfg hostnameOf markupOf opts size clip env).fst = 0 :=
      List.count_eq_zero.mpr fun hm => (hpipe _ hm).2.1 rfl
    rw [h0]
    simp

/-- Attempt-count bound for the retry loop: every attempt acquires the engine
at most once, so the loop acquires it at most (accumulated + remaining
retries) times. -/
lemma withPageLoop_acquire_count (attempt : Nat → List Event × Except JsError Buffer)
    (hA : ∀ i, (attempt i).fst.count Event.engineAcquire ≤ 1) :
    ∀ retries idx lastE acc,
      (withPageLoop attempt idx retries lastE acc).fst.count Event.engineAcquire ≤
        acc.count Event.engineAcquire + retries := by
  intro retries
  induction retries with
  | zero =>
    intro idx lastE acc
    simp [withPageLoop]
  | succ n ih =>
    intro idx lastE acc
    simp only [withPageLoop]
    rcases hAt : attempt idx with ⟨tr, res⟩
    have htr : tr.count Event.engineAcquire ≤ 1 := by
      have := hA idx
      rw [hAt] at this
      exact this
    cases res with
    | ok b =>
      simp only [List.count_append]
      omega
    | error er =>
      by_cases hc : isEngineClosedMsg er.message
      · dsimp only
        rw [if_pos hc]
        calc (withPageLoop attempt (idx + 1) n (some er)
            (acc ++ tr ++ [Event.resetBrowser, Event.delay 500])).fst.count
              Event.engineAcquire
            ≤ (acc ++ tr ++ [Event.resetBrowser, Event.delay 500]).count
                Event.engineAcquire + n := ih _ _ _
          _ ≤ acc.count Event.engineAcquire + (n + 1) := by
              simp only [List.count_append]
              have : List.count Event.engineAcquire
                  [Event.resetBrowser, Event.delay 500] = 0 := by simp
              omega
      · dsimp only
        rw [if_neg hc]
        simp only [List.count_append]
        omega

/-- Claim C2: the browser-session wrapper makes at most 3 attempts; a success
returns at once; a failure whose message lacks the closed-engine marker
propagates immediately after the first attempt; a closed-engine failure
discards the browser handle and waits 500 ms before the next attempt; and
when all three attempts fail with closed-engine errors, the last failure is
propagated. -/
theorem C2_withPage_retry_policy (res : Nat → Except JsError Buffer) :
    (withPage (fun i => ([Event.engineAcquire], res i))).fst.count
        Event.engineAcquire ≤ 3 ∧
    (∀ b, res 0 = .ok b →
        withPage (fun i => ([Event.engineAcquire], res i)) =
          ([Event.engineAcquire], .ok b)) ∧
    (∀ e0, res 0 = .error e0 → isEngineClosedMsg e0.message = false →
        withPage (fun i => ([Event.engineAcquire], res i)) =
          ([Event.engineAcquire], .error e0)) ∧
    (∀ e0 e1, res 0 = .error e0 → isEngineClosedMsg e0.message = true →
        res 1 = .error e1 → isEngineClosedMsg e1.message = false →
        withPage (fun i => ([Event.engineAcquire], res i)) =
          ([Event.engineAcquire, Event.resetBrowser, Event.delay 500,
            Event.engineAcquire], .error e1)) ∧
    (∀ e0 e1 e2, res 0 = .error e0 → isEngineClosedMsg e0.message = true →
        res 1 = .error e1 → isEngineClosedMsg e1.message = true →
        res 2 = .error e2 → isEngineClosedMsg e2.message = true →
        withPage (fun i => ([Event.engineAcquire], res i)) =
          ([Event.engineAcquire, Event.resetBrowser, Event.delay 500,
            Event.engineAcquire, Event.resetBrowser, Event.delay 500,
            Event.engineAcquire, Event.resetBrowser, Event.delay 500],
            .error e2)) := by
  refine ⟨?_, ?_, ?_, ?_, ?_⟩
  · have := withPageLoop_acquire_count (fun i => ([Event.engineAcquire], res i))
      (by intro i; simp) 3 0 none []
    simpa [withPage] using this
  · intro b h0
    simp [withPage, withPageLoop, h0]
  · intro e0 h0 hc0
    simp [withPage, withPageLoop, h0, hc0]
  · intro e0 e1 h0 hc0 h1 hc1
    simp [withPage, withPageLoop, h0, hc0, h1, hc1]
  · intro e0 e1 e2 h0 hc0 h1 hc1 h2 hc2
    simp [withPage, withPageLoop, h0, hc0, h1, hc1, h2, hc2]

/-- Witness for C2: three consecutive closed-engine failures produce three
attempts, a reset and delay after each, and the third error is propagated. -/
theorem C2_withPage_retry_policy_witness :
    withPage (fun _ => ([Event.engineAcquire],
        Except.error ⟨engineClosedPattern⟩)) =
      ([Event.engineAcquire, Event.resetBrowser, Event.delay 500,
        Event.engineAcquire, Event.resetBrowser, Event.delay 500,
        Event.engineAcquire, Event.resetBrowser, Event.delay 500],
        .error ⟨engineClosedPattern⟩) ∧
    withPage (fun _ => ([Event.engineAcquire],
        Except.error ⟨"URL not in allowlist"⟩)) =
      ([Event.engineAcquire], .error ⟨"URL not in allowlist"⟩) :=
  ⟨(C2_withPage_retry_policy
      (fun _ => Except.error ⟨engineClosedPattern⟩)).2.2.2.2
        ⟨engineClosedPattern⟩ ⟨engineClosedPattern⟩ ⟨engineClosedPattern⟩
        rfl (by decide) rfl (by decide) rfl (by decide),
    (C2_withPage_retry_policy
      (fun _ => Except.error ⟨"URL not in allowlist"⟩)).2.2.1
        ⟨"URL not in allowlist"⟩ rfl (by decide)⟩

/-- Matching rule as claim C4 states it: a wildcard entry is said to match
only proper subdomains, never the bare domain itself. -/
def claimWildcardMatches (h entry : String) : Bool :=
  if strStartsWith entry "*." then strEndsWith h ("." ++ strDrop entry 2)
  else h == entry

/-- Counterexample to claim C4: with the single allowlist entry *.example.com
the code accepts the bare hostname example.com (h equals the domain after
stripping the wildcard marker), although the claim says a wildcard entry does
not match the bare domain unless it is listed explicitly. -/
theorem C4_wildcard_bare_domain_counterexample :
    isWhitelisted hostnameId ["*.example.com"] "example.com" = true ∧
    hostMatchesEntry "example.com" "*.example.com" = true ∧
    claimWildcardMatches "example.com" "*.example.com" = false :=
  ⟨rfl, rfl, rfl⟩

/-- Claim C4 as amended: a wildcard entry *.domain matches both every
subdomain (hostnames ending in .domain) and the bare domain itself; a
non-wildcard entry matches only by equality; and a url-mode request whose
hostname matches no entry fails with the not-in-allowlist error. -/
theorem C4_allowlist_matching (cfg : Config) (hostnameOf : String → Option String)
    (markupOf : String → Option (List (String × String)) → String)
    (opts : RenderOpts) :
    (∀ h entry, strStartsWith entry "*." = true →
        hostMatchesEntry h entry =
          (h == strDrop entry 2 || strEndsWith h ("." ++ strDrop entry 2))) ∧
    (∀ h entry, strStartsWith entry "*." = false →
        hostMatchesEntry h entry = (h == entry)) ∧
    (truthy opts.templateName = false → truthy opts.html = false →
      truthy opts.url = true → cfg.ALLOW_URL = true →
      isWhitelisted hostnameOf cfg.ALLOWLIST (opts.url.getD "") = false →
      dispatchContent cfg hostnameOf markupOf opts =
        .error ⟨"URL not in allowlist"⟩) := by
  refine ⟨?_, ?_, ?_⟩
  · intro h entry hw
    simp [hostMatchesEntry, hw]
  · intro h entry hw
    simp [hostMatchesEntry, hw]
  · intro ht hh hu hA hwl
    simp [dispatchContent, ht, hh, hu, hA, hwl]

/-- Witness for C4 as amended, at concrete inputs: *.example.com matches
sub.example.com and the bare example.com, an exact entry matches only itself,
and a url request to an unlisted host fails with the not-in-allowlist error. -/
theorem C4_allowlist_matching_witness :
    hostMatchesEntry "sub.example.com" "*.example.com" =
      ("sub.example.com" == strDrop "*.example.com" 2 ||
        strEndsWith "sub.example.com" ("." ++ strDrop "*.example.com" 2)) ∧
    hostMatchesEntry "evil.com" "example.com" = ("evil.com" == "example.com") ∧
    dispatchContent
        { defaultConfig with ALLOW_URL := true, ALLOWLIST := ["example.com"] }
        hostnameId markupConst { baseOpts with url := some "evil.com" } =
      .error ⟨"URL not in allowlist"⟩ :=
  ⟨(C4_allowlist_matching defaultConfig hostnameId markupConst baseOpts).1
      "sub.example.com" "*.example.com" rfl,
    (C4_allowlist_matching defaultConfig hostnameId markupConst baseOpts).2.1
      "evil.com" "example.com" rfl,
    (C4_allowlist_matching
        { defaultConfig with ALLOW_URL := true, ALLOWLIST := ["example.com"] }
        hostnameId markupConst { baseOpts with url := some "evil.com" }).2.2
      rfl rfl rfl rfl (by decide)⟩

/-- A url-mode request (no template, no html). -/
def urlOpts : RenderOpts := { baseOpts with url := some "https://example.com/" }

/-- Counterexample to claim C5: under the default configuration (ALLOW_URL
false) a url-mode request does fail with the disabled error, but the route
interceptor has been installed and engine resources (context, page) have been
used on behalf of the request, contradicting the claim that network
interception setup is never reached. -/
theorem C5_route_installed_counterexample :
    (renderHandler defaultConfig documentedPresets hostnameNone markupConst
        urlOpts (fun _ => envAllOk)).snd =
      .error ⟨"URL rendering disabled by server configuration"⟩ ∧
    Event.routeInstall ∈ (renderHandler defaultConfig documentedPresets hostnameNone
        markupConst urlOpts (fun _ => envAllOk)).fst ∧
    Event.engineAcquire ∈ (renderHandler defaultConfig documentedPresets hostnameNone
        markupConst urlOpts (fun _ => envAllOk)).fst ∧
    Event.pageCreate ∈ (renderHandler defaultConfig documentedPresets hostnameNone
        markupConst urlOpts (fun _ => envAllOk)).fst :=
  ⟨rfl, by decide, by decide, by decide⟩

/-- Claim C5 as amended: a url-mode request while ALLOW_URL is false (and
whose preset and size resolution succeed) always fails with the disabled
error and never navigates (no goto event); the route interceptor is installed
and an engine context and page are created before the failure propagates. -/
theorem C5_url_disabled_fails_before_navigation (cfg : Config) (presets : Presets)
    (hostnameOf : String → Option String)
    (markupOf : String → Option (List (String × String)) → String)
    (opts : RenderOpts) (envOf : Nat → AttemptEnv) (size : ViewportSize)
    (clip : Option Clip) (w0 h0 : Option Nat)
    (hA : cfg.ALLOW_URL = false)
    (ht : truthy opts.templateName = false) (hh : truthy opts.html = false)
    (hu : truthy opts.url = true)
    (hwh : resolveWH presets opts.sizePreset opts.width opts.height = .ok (w0, h0))
    (hsz : enforceSize cfg w0 h0 = .ok size)
    (hcl : resolveClip presets opts.clipPreset opts.clip = .ok clip) :
    renderHandler cfg presets hostnameOf markupOf opts envOf =
      ([Event.engineAcquire, Event.contextCreate cfg.DEFAULT_DPR, Event.routeInstall,
        Event.pageCreate, Event.setViewport size.width size.height, Event.emulateMedia,
        Event.setDefaultTimeout (opts.timeout.getD 15000), Event.pageClose,
        Event.contextClose],
        .error ⟨"URL rendering disabled by server configuration"⟩) ∧
    (∀ u, Event.goto u ∉ (renderHandler cfg presets hostnameOf markupOf opts envOf).fst) := by
  have hd : dispatchContent cfg hostnameOf markupOf opts =
      .error ⟨"URL rendering disabled by server configuration"⟩ := by
    simp [dispatchContent, ht, hh, hu, hA]
  have hnc : isEngineClosedMsg "URL rendering disabled by server configuration" = false := by
    decide
  have hmain : renderHandler cfg presets hostnameOf markupOf opts envOf =
      ([Event.engineAcquire, Event.contextCreate cfg.DEFAULT_DPR, Event.routeInstall,
        Event.pageCreate, Event.setViewport size.width size.height, Event.emulateMedia,
        Event.setDefaultTimeout (opts.timeout.getD 15000), Event.pageClose,
        Event.contextClose],
        .error ⟨"URL rendering disabled by server configuration"⟩) := by
    simp [renderHandler, hwh, hsz, hcl, withPage, withPageLoop, renderAttempt,
      pipelineRun, hd, hnc]
  refine ⟨hmain, ?_⟩
  intro u hu2
  rw [hmain] at hu2
  simp at hu2

/-- Witness for C5 as amended at a concrete url-mode request under the
default (url-disabled) configuration. -/
theorem C5_url_disabled_fails_before_navigation_witness :
    renderHandler defaultConfig documentedPresets hostnameNone markupConst
        urlOpts (fun _ => envAllOk) =
      ([Event.engineAcquire, Event.contextCreate 1, Event.routeInstall,
        Event.pageCreate, Event.setViewport 1200 630, Event.emulateMedia,
        Event.setDefaultTimeout 15000, Event.pageClose, Event.contextClose],
        .error ⟨"URL rendering disabled by server configuration"⟩) :=
  (C5_url_disabled_fails_before_navigation defaultConfig documentedPresets
      hostnameNone markupConst urlOpts (fun _ => envAllOk) ⟨1200, 630⟩ none
      none none rfl rfl rfl rfl rfl rfl rfl).1

/-- The network policy exactly as claim C6 states it: data and blob URIs are
allowed unconditionally, and any other URI is allowed only if external access
is permitted AND url rendering is enabled AND the target is allowlisted. -/
def claimRouteAllows (cfg : Config) (hostnameOf : String → Option String)
    (url : String) : Bool :=
  strStartsWith url "data:" || strStartsWith url "blob:" ||
    (!cfg.BLOCK_EXTERNAL && cfg.ALLOW_URL &&
      isWhitelisted hostnameOf cfg.ALLOWLIST url)

/-- A configuration with external blocking disabled and url rendering
disabled. -/
def unblockedConfig : Config := { defaultConfig with BLOCK_EXTERNAL := false }

/-- A configuration with blocking enabled, url rendering enabled and one
allowlisted domain. -/
def allowlistedConfig : Config :=
  { defaultConfig with ALLOW_URL := true, ALLOWLIST := ["example.com"] }

/-- Counterexample to claim C6, in both directions: with BLOCK_EXTERNAL false
the interceptor allows an arbitrary http URI even though url rendering is
disabled and nothing is allowlisted (the claim requires an abort); and with
BLOCK_EXTERNAL true the interceptor allows an allowlisted target even though
external access is not permitted (the claim again requires an abort). -/
theorem C6_route_policy_counterexample :
    routeHandler unblockedConfig hostnameNone "http://evil.test/a" = .cont ∧
    claimRouteAllows unblockedConfig hostnameNone "http://evil.test/a" = false ∧
    routeHandler allowlistedConfig hostnameId "example.com" = .cont ∧
    claimRouteAllows allowlistedConfig hostnameId "example.com" = false :=
  ⟨rfl, rfl, rfl, rfl⟩

/-- Claim C6 as amended: when external blocking is disabled every request is
allowed unconditionally; when blocking is enabled, data and blob URIs are
allowed unconditionally, any other URI is allowed exactly when url rendering
is enabled and the target is allowlisted, and everything else is aborted. -/
theorem C6_route_policy (cfg : Config) (hostnameOf : String → Option String)
    (url : String) :
    (cfg.BLOCK_EXTERNAL = false → routeHandler cfg hostnameOf url = .cont) ∧
    (cfg.BLOCK_EXTERNAL = true →
      ((strStartsWith url "data:" || strStartsWith url "blob:") = true →
        routeHandler cfg hostnameOf url = .cont) ∧
      ((strStartsWith url "data:" || strStartsWith url "blob:") = false →
        (cfg.ALLOW_URL && isWhitelisted hostnameOf cfg.ALLOWLIST url) = true →
        routeHandler cfg hostnameOf url = .cont) ∧
      ((strStartsWith url "data:" || strStartsWith url "blob:") = false →
        (cfg.ALLOW_URL && isWhitelisted hostnameOf cfg.ALLOWLIST url) = false →
        routeHandler cfg hostnameOf url = .abort)) := by
  refine ⟨?_, ?_⟩
  · intro hb
    simp [routeHandler, hb]
  · intro hb
    refine ⟨?_, ?_, ?_⟩
    · intro hdm
      simp [routeHandler, hb, hdm]
    · intro hdm hal
      simp [routeHandler, hb, hdm, hal]
    · intro hdm hal
      simp [routeHandler, hb, hdm, hal]

/-- Witness for C6 as amended at concrete URLs: a data URI is allowed under
blocking, an unlisted http URI is aborted, an allowlisted host is allowed,
and with blocking disabled everything is allowed. -/
theorem C6_route_policy_witness :
    routeHandler defaultConfig hostnameNone "data:image/png;base64,AAA" = .cont ∧
    routeHandler defaultConfig hostnameNone "http://evil.test/a" = .abort ∧
    routeHandler allowlistedConfig hostnameId "example.com" = .cont ∧
    routeHandler unblockedConfig hostnameNone "http://evil.test/a" = .cont :=
  ⟨((C6_route_policy defaultConfig hostnameNone "data:image/png;base64,AAA").2
      rfl).1 (by decide),
    ((C6_route_policy defaultConfig hostnameNone "http://evil.test/a").2
      rfl).2.2 (by decide) (by decide),
    ((C6_route_policy allowlistedConfig hostnameId "example.com").2
      rfl).2.1 (by decide) (by decide),
    (C6_route_policy unblockedConfig hostnameNone "http://evil.test/a").1 rfl⟩

/-- A request supplying both inline html and a url. -/
def bothSourcesOpts : RenderOpts :=
  { baseOpts with html := some "<p>hi</p>", url := some "https://example.com/" }

/-- Claim C7: content is selected by fixed precedence templateName, then
html, then url, the first truthy source winning silently; in particular a
request supplying truthy html renders the html whatever url is present. -/
theorem C7_content_source_precedence (cfg : Config)
    (hostnameOf : String → Option String)
    (markupOf : String → Option (List (String × String)) → String)
    (opts : RenderOpts) :
    (truthy opts.templateName = true →
      dispatchContent cfg hostnameOf markupOf opts =
        .ok (.markup (injectCss opts.css
          (markupOf (opts.templateName.getD "") opts.templateData)))) ∧
    (truthy opts.templateName = false → truthy opts.html = true →
      dispatchContent cfg hostnameOf markupOf opts =
        .ok (.markup (injectCss opts.css (opts.html.getD "")))) ∧
    (truthy opts.templateName = false → truthy opts.html = false →
      truthy opts.url = true → cfg.ALLOW_URL = true →
      isWhitelisted hostnameOf cfg.ALLOWLIST (opts.url.getD "") = true →
      dispatchContent cfg hostnameOf markupOf opts =
        .ok (.nav (opts.url.getD ""))) := by
  refine ⟨?_, ?_, ?_⟩ <;> intros <;> simp [dispatchContent, *]

/-- Witness for C7: a request supplying both html and url renders the html. -/
theorem C7_content_source_precedence_witness :
    dispatchContent defaultConfig hostnameNone markupConst bothSourcesOpts =
      .ok (.markup "<p>hi</p>") :=
  (C7_content_source_precedence defaultConfig hostnameNone markupConst
      bothSourcesOpts).2.1 (by decide) (by decide)

/-- A request whose sizePreset is the empty string, together with explicit
width and height and an html source. -/
def emptyPresetOpts : RenderOpts :=
  { baseOpts with
    sizePreset := some ""
    width := some 800
    height := some 600
    html := some "<p>x</p>" }

/-- A request whose sizePreset is an Object.prototype property name, together
with explicit width and height and an html source. -/
def protoPresetOpts : RenderOpts :=
  { baseOpts with
    sizePreset := some "toString"
    width := some 800
    height := some 600
    html := some "<p>x</p>" }

/-- Counterexample to claim C8, in two ways.  With sizePreset set to the
empty string (set, absent from the table) the falsy guard skips the preset
branch and the request silently renders at the explicit 800x600.  With
sizePreset set to toString (nonempty, absent from the table as an own key)
the bracket access finds the member inherited from Object.prototype, the
truthiness guard passes, the preset reads yield undefined dimensions, and the
request silently renders at the 1200x630 defaults — in neither case does the
request fail with an unknown-preset error. -/
theorem C8_preset_lookup_counterexample :
    emptyPresetOpts.sizePreset = some "" ∧
    documentedPresets.sizes.lookup "" = none ∧
    (renderHandler defaultConfig documentedPresets hostnameNone markupConst
        emptyPresetOpts (fun _ => envAllOk)).snd = .ok 0 ∧
    Event.setViewport 800 600 ∈ (renderHandler defaultConfig documentedPresets
        hostnameNone markupConst emptyPresetOpts (fun _ => envAllOk)).fst ∧
    protoPresetOpts.sizePreset = some "toString" ∧
    documentedPresets.sizes.lookup "toString" = none ∧
    (renderHandler defaultConfig documentedPresets hostnameNone markupConst
        protoPresetOpts (fun _ => envAllOk)).snd = .ok 0 ∧
    Event.setViewport 1200 630 ∈ (renderHandler defaultConfig documentedPresets
        hostnameNone markupConst protoPresetOpts (fun _ => envAllOk)).fst :=
  ⟨rfl, rfl, rfl, by decide, rfl, rfl, rfl, by decide⟩

/-- Claim C8 as amended: for every request whose sizePreset is set to a
nonempty name, the preset-table bracket access follows JS property semantics.
A name that is neither an own entry nor inherited from Object.prototype fails
the whole request with the unknown-preset error (empty trace, no fallback);
an own entry overrides any explicit width and height; a name inherited from
Object.prototype passes the truthiness guard and replaces the dimensions with
undefined, so the request silently falls back to the 1200x630 defaults; and
twitter_card from the documented table resolves to 1200x630 whatever width
and height are supplied. -/
theorem C8_sizePreset_override (presets : Presets) (opts : RenderOpts) (name : String)
    (hname : opts.sizePreset = some name) (hne : name.isEmpty = false) :
    (jsGetProp presets.sizes name = .absent →
      ∀ (cfg : Config) (hostnameOf : String → Option String)
        (markupOf : String → Option (List (String × String)) → String)
        (envOf : Nat → AttemptEnv),
        renderHandler cfg presets hostnameOf markupOf opts envOf =
          ([], .error ⟨"Unknown sizePreset: " ++ name⟩)) ∧
    (∀ sp, jsGetProp presets.sizes name = .own sp →
      resolveWH presets opts.sizePreset opts.width opts.height =
        .ok (some sp.width, some sp.height)) ∧
    (jsGetProp presets.sizes name = .inherited →
      resolveWH presets opts.sizePreset opts.width opts.height = .ok (none, none)) ∧
    (∀ opts2 : RenderOpts, opts2.sizePreset = some "twitter_card" →
      resolveWH documentedPresets opts2.sizePreset opts2.width opts2.height =
        .ok (some 1200, some 630) ∧
      enforceSize defaultConfig (some 1200) (some 630) = .ok ⟨1200, 630⟩) := by
  refine ⟨?_, ?_, ?_, ?_⟩
  · intro hlk cfg hostnameOf markupOf envOf
    simp [renderHandler, resolveWH, hname, hne, hlk]
  · intro sp hlk
    simp [resolveWH, hname, hne, hlk]
  · intro hlk
    simp [resolveWH, hname, hne, hlk]
  · intro opts2 h2
    rw [h2]
    exact ⟨rfl, rfl⟩

/-- A request asking for the twitter_card preset while also supplying 50x50. -/
def twitterCardOpts : RenderOpts :=
  { baseOpts with
    sizePreset := some "twitter_card"
    width := some 50
    height := some 50 }

/-- Witness for C8 as amended: a nonempty name absent from both the table and
Object.prototype fails the whole request with the unknown-preset error;
twitter_card overrides explicit width and height 50x50 to 1200x630; and the
inherited name toString resolves to undefined dimensions. -/
theorem C8_sizePreset_override_witness :
    renderHandler defaultConfig documentedPresets hostnameNone markupConst
        { baseOpts with sizePreset := some "nope" } (fun _ => envAllOk) =
      ([], .error ⟨"Unknown sizePreset: " ++ "nope"⟩) ∧
    resolveWH documentedPresets (some "twitter_card") (some 50) (some 50) =
      .ok (some 1200, some 630) ∧
    resolveWH documentedPresets protoPresetOpts.sizePreset protoPresetOpts.width
        protoPresetOpts.height = .ok (none, none) :=
  ⟨(C8_sizePreset_override documentedPresets
        { baseOpts with sizePreset := some "nope" } "nope" rfl rfl).1 rfl
      defaultConfig hostnameNone markupConst (fun _ => envAllOk),
    ((C8_sizePreset_override documentedPresets twitterCardOpts "twitter_card"
        rfl rfl).2.2.2 twitterCardOpts rfl).1,
    (C8_sizePreset_override documentedPresets protoPresetOpts "toString"
        rfl rfl).2.2.1 rfl⟩

/-- Claim C9: every browsing context is created with deviceScaleFactor equal
to the service-wide DEFAULT_DPR whatever dpr the request carries; the
requested dpr only patches the reported devicePixelRatio via an evaluate call
placed after the content load and before the screenshot. -/
theorem C9_context_dpr_is_default (cfg : Config) (presets : Presets)
    (hostnameOf : String → Option String)
    (markupOf : String → Option (List (String × String)) → String)
    (opts : RenderOpts) (envOf : Nat → AttemptEnv) :
    (∀ d, Event.contextCreate d ∈
        (renderHandler cfg presets hostnameOf markupOf opts envOf).fst →
      d = cfg.DEFAULT_DPR) ∧
    (∀ (size : ViewportSize) (clip : Option Clip) (env : AttemptEnv)
        (ci : ContentInstruction) (b : Buffer),
      dispatchContent cfg hostnameOf markupOf opts = .ok ci →
      env.loadResult = .ok () → (waitStep opts env).snd = .ok () →
      env.shotResult = .ok b →
      (renderAttempt cfg hostnameOf markupOf opts size clip env).fst =
        [Event.engineAcquire, Event.contextCreate cfg.DEFAULT_DPR,
         Event.routeInstall, Event.pageCreate,
         Event.setViewport size.width size.height, Event.emulateMedia,
         Event.setDefaultTimeout (opts.timeout.getD 15000), loadEventOf ci]
          ++ (waitStep opts env).fst
          ++ [Event.setViewport size.width size.height,
              Event.evalSetDPR (opts.dpr.getD cfg.DEFAULT_DPR),
              Event.screenshot (screenshotOptionsOf opts clip),
              Event.pageClose, Event.contextClose]) := by
  constructor
  · intro d hmem
    simp only [renderHandler] at hmem
    split at hmem
    · simp at hmem
    · split at hmem
      · simp at hmem
      · split at hmem
        · simp at hmem
        · rename_i w0h0 w0 h0 hwh size hsz clipr clip hclip
          refine withPageLoop_event_pred
            (fun e => ∀ d, e = Event.contextCreate d → d = cfg.DEFAULT_DPR)
            _ ?_ (by simp) (by simp) 3 0 none [] (by simp) _ hmem d rfl
          intro i e he
          rw [renderAttempt_fst] at he
          intro d2 hde
          subst hde
          rcases List.mem_append.mp he with h1 | h2
          · rcases List.mem_append.mp h1 with h3 | h4
            · simp at h3
              exact h3
            · exact absurd rfl
                ((pipelineRun_events cfg hostnameOf markupOf opts size clip
                  (envOf i) _ h4).2.2.1 d2)
          · simp at h2
  · intro size clip env ci b hd hl hw hs
    exact congrArg Prod.fst
      (renderAttempt_success_trace cfg hostnameOf markupOf opts size clip env
        ci b hd hl hw hs)

/-- Witness for C9 at a concrete request asking dpr 3: the context is created
with the default factor 1 and the evaluate call patches the ratio to 3
between content load and screenshot. -/
theorem C9_context_dpr_is_default_witness :
    (renderAttempt defaultConfig hostnameNone markupConst
        { baseOpts with html := some "<p>x</p>", dpr := some 3 }
        ⟨1200, 630⟩ none envAllOk).fst =
      [Event.engineAcquire, Event.contextCreate 1, Event.routeInstall,
       Event.pageCreate, Event.setViewport 1200 630, Event.emulateMedia,
       Event.setDefaultTimeout 15000, Event.setContent "<p>x</p>"]
        ++ []
        ++ [Event.setViewport 1200 630, Event.evalSetDPR 3,
            Event.screenshot (screenshotOptionsOf
              { baseOpts with html := some "<p>x</p>", dpr := some 3 } none),
            Event.pageClose, Event.contextClose] :=
  (C9_context_dpr_is_default defaultConfig documentedPresets hostnameNone
      markupConst { baseOpts with html := some "<p>x</p>", dpr := some 3 }
      (fun _ => envAllOk)).2 ⟨1200, 630⟩ none envAllOk
      (.markup "<p>x</p>") 0 rfl rfl rfl rfl

/-- Claim C10: the clip rectangle is never validated or clamped: the schema
accepts any numeric coordinates, the resolved clip is the request clip
verbatim when no preset is given, and the rectangle reaches the screenshot
call unchanged under every configuration. -/
theorem C10_clip_passed_unvalidated (cfg : Config) (presets : Presets)
    (hostnameOf : String → Option String)
    (markupOf : String → Option (List (String × String)) → String)
    (opts : RenderOpts) (envOf : Nat → AttemptEnv) (cl : Option Clip)
    (hcl : resolveClip presets opts.clipPreset opts.clip = .ok cl) :
    (∀ c : Clip, clipSchemaAccepts c = true) ∧
    (opts.clipPreset = none → cl = opts.clip) ∧
    (screenshotOptionsOf opts cl).clip = cl ∧
    (∀ o, Event.screenshot o ∈
        (renderHandler cfg presets hostnameOf markupOf opts envOf).fst →
      o = screenshotOptionsOf opts cl) ∧
    (∀ (size : ViewportSize) (env : AttemptEnv) (ci : ContentInstruction)
        (b : Buffer),
      dispatchContent cfg hostnameOf markupOf opts = .ok ci →
      env.loadResult = .ok () → (waitStep opts env).snd = .ok () →
      env.shotResult = .ok b →
      Event.screenshot (screenshotOptionsOf opts cl) ∈
        (renderAttempt cfg hostnameOf markupOf opts size cl env).fst) := by
  refine ⟨fun c => rfl, ?_, rfl, ?_, ?_⟩
  · intro hnone
    rw [hnone] at hcl
    simp only [resolveClip, Except.ok.injEq] at hcl
    exact hcl.symm
  · intro o hmem
    simp only [renderHandler] at hmem
    split at hmem
    · simp at hmem
    · split at hmem
      · simp at hmem
      · split at hmem
        · simp at hmem
        · rename_i w0h0 w0 h0 hwh size hsz clipr clip hclip
          have hcc : clip = cl := by
            rw [hclip] at hcl
            exact (Except.ok.injEq _ _).mp hcl
          subst hcc
          refine withPageLoop_event_pred
            (fun e => ∀ o, e = Event.screenshot o →
              o = screenshotOptionsOf opts clip)
            _ ?_ (by simp) (by simp) 3 0 none [] (by simp) _ hmem o rfl
          intro i e he
          rw [renderAttempt_fst] at he
          intro o2 hoe
          subst hoe
          rcases List.mem_append.mp he with h1 | h2
          · rcases List.mem_append.mp h1 with h3 | h4
            · simp at h3
            · exact (pipelineRun_events cfg hostnameOf markupOf opts size clip
                (envOf i) _ h4).2.2.2.2 o2 rfl
          · simp at h2
  · intro size env ci b hd hl hw hs
    rw [congrArg Prod.fst
      (renderAttempt_success_trace cfg hostnameOf markupOf opts size cl env
        ci b hd hl hw hs)]
    simp

/-- A clip rectangle with a negative origin and a huge extent. -/
def wildClip : Clip := ⟨-100, -5, 1000000000, 1000000000⟩

/-- A request carrying the wild clip rectangle and an html source. -/
def wildClipOpts : RenderOpts :=
  { baseOpts with
    html := some "<p>x</p>"
    clip := some wildClip }

/-- Witness for C10 at a concrete request carrying a negative, oversized clip
under the default configuration: the schema accepts it and the screenshot
call receives it verbatim. -/
theorem C10_clip_passed_unvalidated_witness :
    clipSchemaAccepts wildClip = true ∧
    (screenshotOptionsOf wildClipOpts (some wildClip)).clip = some wildClip ∧
    Event.screenshot (screenshotOptionsOf wildClipOpts (some wildClip)) ∈
      (renderAttempt defaultConfig hostnameNone markupConst wildClipOpts
        ⟨1200, 630⟩ (some wildClip) envAllOk).fst :=
  ⟨(C10_clip_passed_unvalidated defaultConfig documentedPresets hostnameNone
      markupConst wildClipOpts (fun _ => envAllOk) (some wildClip) rfl).1 wildClip,
    (C10_clip_passed_unvalidated defaultConfig documentedPresets hostnameNone
      markupConst wildClipOpts (fun _ => envAllOk) (some wildClip) rfl).2.2.1,
    (C10_clip_passed_unvalidated defaultConfig documentedPresets hostnameNone
      markupConst wildClipOpts (fun _ => envAllOk) (some wildClip) rfl).2.2.2.2
      ⟨1200, 630⟩ envAllOk (.markup "<p>x</p>") 0 rfl rfl rfl rfl⟩

end Html2Image
